import Mathlib

set_option linter.unusedVariables false

/-!
Shallow embedding of the discussion-tree materializers of the mcp-collections
repository: the Hacker News forward-link tree walker (src/hacker-news.ts,
getComments), the nested-reply Reddit adapter (src/reddit.ts, searchReddit and
getRedditComments with processComments), and the backward-link PullPush adapter
(src/reddit-pushapi.ts, searchReddit and getRedditComments with its two-pass
comment-tree build).  Network calls are modelled by explicit attempt functions;
machine behaviour (axios with validateStatus null, JS truthiness, Promise.all
rejection) is translated directly from the source.
-/

namespace MCP

/-- JS truthiness of an optional string field: `undefined`, `null` and the
empty string are falsy; every other string is truthy. -/
def strTruthy : Option String → Bool
  | none => false
  | some s => s != ""

/-! ## Resilient fetcher: the retry loop shared by the Reddit adapters

Each adapter call site repeats the same pattern: up to `maxRetries = 3`
attempts, axios configured with `validateStatus: null` (so a response never
makes axios itself throw), an explicit `throw new Error("HTTP error ...")`
when `response.status >= 400`, and on each caught failure `retries++`,
rethrow when `retries >= maxRetries`, otherwise a waited delay of
`baseDelay * 2 ^ (retries - 1)` milliseconds. -/

/-- Result of one axios attempt under `validateStatus: null`: either the
request itself throws (network-level failure, timeout), or a response arrives
carrying a status, a statusText and a parsed body.  A `none` body models a
null or shape-invalid `response.data` payload. -/
inductive AttemptR (α : Type) where
  | netErr (msg : String)
  | resp (status : Nat) (statusText : String) (data : Option α)

/-- The settled response as seen after the loop breaks. -/
structure Response (α : Type) where
  status : Nat
  statusText : String
  data : Option α
deriving Repr

/-- What one iteration of the try block yields: the response when its status
is below 400, otherwise the thrown error message (the explicit
`HTTP error status: statusText` Error for status at least 400, or the axios
network error). -/
def attemptOutcome {α : Type} : AttemptR α → Except String (Response α)
  | .netErr m => .error m
  | .resp s st d =>
      if 400 ≤ s then .error ("HTTP error " ++ toString s ++ ": " ++ st)
      else .ok ⟨s, st, d⟩

/-- Observable outcome of the whole retry loop: the final result, how many
attempts were issued, and the total backoff delay waited between attempts. -/
structure RetryOutcome (α : Type) where
  result : Except String (Response α)
  attemptsMade : Nat
  totalDelay : Nat

/-- One step of the while loop.  `remaining` is `maxRetries - retries`,
`att` the zero-based index of the attempt about to run, `acc` the delay
accumulated so far.  On failure the counter is incremented; when it reaches
the maximum the last error is rethrown, otherwise a delay of
`base * 2 ^ att` (that is `baseDelay * 2 ^ (retries - 1)` after the
increment) is waited and the loop continues. -/
def retryGo {α : Type} (base : Nat) (attempt : Nat → AttemptR α) :
    Nat → Nat → Nat → RetryOutcome α
  | 0, att, acc => ⟨.error "no response", att, acc⟩
  | remaining + 1, att, acc =>
    match attemptOutcome (attempt att) with
    | .ok r => ⟨.ok r, att + 1, acc⟩
    | .error e =>
      if remaining = 0 then ⟨.error e, att + 1, acc⟩
      else retryGo base attempt remaining (att + 1) (acc + base * 2 ^ att)

/-- The retry loop as written at every call site: `retries` starts at 0 and
the loop runs while `retries < maxRetries`. -/
def retryLoop {α : Type} (base maxRetries : Nat) (attempt : Nat → AttemptR α) :
    RetryOutcome α :=
  retryGo base attempt maxRetries 0 0

/-! ## Nested-reply adapter (src/reddit.ts) -/

/-- A raw child of a Reddit listing: either a truncation marker of kind
`more` carrying a count and the omitted child ids, or a comment whose
`replies` field, when truthy with a truthy `data` field, holds the nested
children list. -/
inductive RChild where
  | more (count : Nat) (children : List String)
  | comment (id author body : String) (score : Int) (created : Nat)
      (permalink : Option String) (replies : Option (List RChild))

/-- A processed output node of processComments: a placeholder carrying the
count and omitted child ids, or a comment with its processed replies. -/
inductive PNode where
  | more (count : Nat) (children : List String)
  | comment (id author body : String) (score : Int) (created : Nat)
      (permalink : Option String) (replies : List PNode)

/-- Permalink field of processComments and of the post normalization in
src/reddit.ts: when truthy the fixed origin is prepended to the relative
path, otherwise the output field is null. -/
def redditPermalink (p : Option String) : Option String :=
  if strTruthy p then some ("https://www.reddit.com" ++ p.getD "") else none

mutual

/-- Processing of a single listing child, from the body of the map callback
in processComments (src/reddit.ts lines 381 to 409). -/
def processOne : RChild → PNode
  | .more c ch => .more c ch
  | .comment i a b s t p r =>
    .comment i a b s t (redditPermalink p)
      (match r with
       | some rs => processComments rs
       | none => [])

/-- processComments maps processOne over the listing children in order. -/
def processComments : List RChild → List PNode
  | [] => []
  | c :: cs => processOne c :: processComments cs

end

/-- Raw post record extracted from `response.data[0].data.children[0].data`. -/
structure RPostData where
  id : String
  title : String
  author : String
  subreddit : String
  score : Int
  created_utc : Nat
  permalink : Option String
  url : String
  selftext : Option String
  num_comments : Nat
deriving Repr

/-- Body of a valid two-element comments response: the post record and the
raw top-level listing children. -/
structure RedditListing where
  post : RPostData
  comments : List RChild

/-- Normalized post object of the getRedditComments output. -/
structure OutPost where
  id : String
  title : String
  author : String
  subreddit : String
  score : Int
  created_utc : Nat
  permalink : Option String
  url : String
  selftext : String
  num_comments : Nat
deriving DecidableEq, Repr

/-- Post normalization of src/reddit.ts getRedditComments. -/
def normalizeRPost (p : RPostData) : OutPost :=
  { id := p.id, title := p.title, author := p.author, subreddit := p.subreddit,
    score := p.score, created_utc := p.created_utc,
    permalink := redditPermalink p.permalink,
    url := p.url, selftext := p.selftext.getD "",
    num_comments := p.num_comments }

/-- Serialized payload of a successful getRedditComments call. -/
structure RedditCommentsOut where
  post : OutPost
  comments : List PNode
  comment_count : Nat

/-- Observable run of a whole tool invocation: the outcome together with the
attempt count and accumulated backoff delay of its retry loop. -/
structure ToolRun (β : Type) where
  result : Except String β
  attemptsMade : Nat
  totalDelay : Nat

/-- getRedditComments of src/reddit.ts: the retry loop (base delay 1000 ms,
3 attempts), the response-shape check throwing the UserError
`Invalid response from Reddit API`, processComments over the listing, and
the catch block.  Errors escaping the retry loop are plain Errors without a
response field, so the catch block wraps them as
`Failed to get comments: message`; UserErrors pass through unchanged. -/
def getRedditCommentsReddit (attempt : Nat → AttemptR RedditListing)
    (postId : String) : ToolRun RedditCommentsOut :=
  let out := retryLoop 1000 3 attempt
  let res : Except String RedditCommentsOut :=
    match out.result with
    | .error e => .error ("Failed to get comments: " ++ e)
    | .ok r =>
      match r.data with
      | none => .error "Invalid response from Reddit API"
      | some body =>
        .ok { post := normalizeRPost body.post,
              comments := processComments body.comments,
              comment_count := (processComments body.comments).length }
  ⟨res, out.attemptsMade, out.totalDelay⟩

/-! ## Backward-link adapter (src/reddit-pushapi.ts) -/

/-- A raw PullPush comment record as consumed by the tree build of
getRedditComments.  `parent_id` is optional because the second pass guards on
its truthiness before testing the `t1_` prefix. -/
structure PushComment where
  id : String
  author : String
  body : String
  score : Int
  created_utc : Nat
  permalink : Option String
  subreddit : String
  parent_id : Option String
deriving DecidableEq, Repr

/-- Scalar fields of a built tree node, mirroring the RedditComment record of
the first pass (everything except the mutable `replies` array). -/
structure PushFields where
  id : String
  author : String
  body : String
  score : Int
  created_utc : Nat
  permalink : String
  parent_id : Option String
deriving DecidableEq, Repr

/-- First-pass node construction (src/reddit-pushapi.ts lines 466 to 479):
the permalink is the origin plus the relative path when truthy, otherwise the
synthesized fallback path built from the subreddit, the post id and the
comment id. -/
def mkFields (postId : String) (c : PushComment) : PushFields :=
  { id := c.id, author := c.author, body := c.body, score := c.score,
    created_utc := c.created_utc,
    permalink :=
      if strTruthy c.permalink then "https://www.reddit.com" ++ c.permalink.getD ""
      else "https://www.reddit.com/r/" ++ c.subreddit ++ "/comments/" ++ postId
        ++ "/comment/" ++ c.id ++ "/",
    parent_id := c.parent_id }

/-- A materialized comment-tree node. -/
inductive PushNode where
  | node (fields : PushFields) (replies : List PushNode)

/-- The commentsById lookup table after the first pass: a later record with
the same id overwrites an earlier one. -/
def lookupById : List PushComment → String → Option PushComment
  | [], _ => none
  | c :: rest, i =>
    match lookupById rest i with
    | some x => some x
    | none => if c.id = i then some c else none

/-- First branch of the second pass: the record is a direct reply to the
post, its parent_id being exactly `t3_` plus the post id. -/
def directTopLevel (postId : String) (c : PushComment) : Bool :=
  c.parent_id == some ("t3_" ++ postId)

/-- JS String.prototype.startsWith, computed on the underlying character
list (the library String.startsWith, built on substrEq, is not reducible in
the kernel). -/
def strStartsWith (s pre : String) : Bool :=
  s.toList.take pre.length == pre.toList

/-- Orphan branch of the second pass: the parent_id is truthy, carries the
`t1_` comment prefix, and the stripped parent id is not a key of the lookup
table, so the record is promoted to the top level. -/
def orphanTopLevel (batch : List PushComment) (c : PushComment) : Bool :=
  match c.parent_id with
  | some p => strStartsWith p "t1_" && (lookupById batch (p.drop 3)).isNone
  | none => false

/-- The topLevelComments array after the second pass: for each record of the
batch, in batch order, the looked-up table entry of its id is pushed when the
record is a direct reply to the post or an orphan; every other record is
either attached to its parent or, when its parent_id is neither exactly
`t3_` plus the post id nor `t1_`-prefixed, not pushed anywhere. -/
def topLevelComments (postId : String) (batch : List PushComment) :
    List PushComment :=
  batch.filterMap (fun c =>
    if directTopLevel postId c || orphanTopLevel batch c then
      lookupById batch c.id
    else none)

/-- The records appended, in batch order, to the replies array of the table
entry with id `p` during the second pass: the records whose parent_id is
exactly `t1_` plus `p`. -/
def childrenEntries (batch : List PushComment) (p : String) : List PushComment :=
  batch.filter (fun c => c.parent_id == some ("t1_" ++ p))

/-- Reading off the final object graph as a tree, fuelled by the recursion
depth: each node carries its first-pass fields and the fully built nodes of
the records attached to its id. -/
def materialize (postId : String) (batch : List PushComment) :
    Nat → PushComment → PushNode
  | 0, c => .node (mkFields postId c) []
  | fuel + 1, c =>
    .node (mkFields postId c)
      ((childrenEntries batch c.id).filterMap (fun ch =>
        (lookupById batch ch.id).map (materialize postId batch fuel)))

/-- The comments array of the serialized output: the top-level entries, each
read off as a tree.  A batch of n records nests at most n deep, so n steps
of fuel read off the whole graph. -/
def treeComments (postId : String) (batch : List PushComment) : List PushNode :=
  (topLevelComments postId batch).map (materialize postId batch batch.length)

/-- Raw submission record returned by the separate post-metadata lookup. -/
structure PushPostData where
  id : String
  title : Option String
  author : Option String
  subreddit : String
  score : Option Int
  created_utc : Option Nat
  permalink : Option String
  url : Option String
  selftext : Option String
  num_comments : Option Nat
deriving DecidableEq, Repr

/-- The post object of the getRedditComments output (the RedditPost
interface): only id, title, selftext and num_comments are always present. -/
structure RedditPost where
  id : String
  title : String
  author : Option String
  subreddit : Option String
  score : Option Int
  created_utc : Option Nat
  permalink : Option String
  url : Option String
  selftext : String
  num_comments : Nat
deriving DecidableEq, Repr

/-- JS `x || d` on an optional string: the default is taken when the field
is absent or empty. -/
def orElseStr (o : Option String) (d : String) : String :=
  if strTruthy o then o.getD "" else d

/-- JS `x || d` on an optional number: the default is taken when the field
is absent or zero. -/
def orElseNat (o : Option Nat) (d : Nat) : Nat :=
  match o with
  | some n => if n = 0 then d else n
  | none => d

/-- The default post object declared before the lookup, kept when the lookup
fails or comes back empty. -/
def defaultPost (postId : String) (commentsLen : Nat) : RedditPost :=
  { id := postId, title := "Unknown", author := none, subreddit := none,
    score := none, created_utc := none, permalink := none, url := none,
    selftext := "", num_comments := commentsLen }

/-- The post object rebuilt from the first record of a successful lookup. -/
def constructedPost (commentsLen : Nat) (pd : PushPostData) : RedditPost :=
  { id := pd.id, title := orElseStr pd.title "Unknown",
    author := pd.author, subreddit := some pd.subreddit,
    score := pd.score, created_utc := pd.created_utc,
    permalink := some
      (if strTruthy pd.permalink then "https://www.reddit.com" ++ pd.permalink.getD ""
       else "https://www.reddit.com/r/" ++ pd.subreddit ++ "/comments/" ++ pd.id ++ "/"),
    url := pd.url, selftext := orElseStr pd.selftext "",
    num_comments := orElseNat pd.num_comments commentsLen }

/-- The post-metadata lookup of getRedditComments (src/reddit-pushapi.ts
lines 409 to 459): a single request whose own try block absorbs every
failure; the constructed post replaces the default only when the status is
exactly 200 and the body holds a nonempty data array. -/
def pushPostLookup (postAttempt : AttemptR (List PushPostData))
    (postId : String) (commentsLen : Nat) : RedditPost :=
  match postAttempt with
  | .netErr _ => defaultPost postId commentsLen
  | .resp status _ d =>
    if status = 200 then
      match d with
      | some (pd :: _) => constructedPost commentsLen pd
      | _ => defaultPost postId commentsLen
    else defaultPost postId commentsLen

/-- Serialized payload of a successful PullPush getRedditComments call.  The
comment_count metadata field counts the raw batch, not the top level. -/
structure PushOut where
  post : RedditPost
  comments : List PushNode
  comment_count : Nat

/-- getRedditComments of src/reddit-pushapi.ts: retry loop over the comment
search, shape check (a missing or non-array data field throws the UserError
`Invalid response from PullPush API or no comments found`), the absorbed
post lookup, the two-pass tree build, and the catch block wrapping plain
errors as `Failed to get comments via PullPush: message`. -/
def pushapiGetComments (attempt : Nat → AttemptR (List PushComment))
    (postAttempt : AttemptR (List PushPostData)) (postId : String) :
    ToolRun PushOut :=
  let out := retryLoop 1000 3 attempt
  let res : Except String PushOut :=
    match out.result with
    | .error e => .error ("Failed to get comments via PullPush: " ++ e)
    | .ok r =>
      match r.data with
      | none => .error "Invalid response from PullPush API or no comments found"
      | some batch =>
        .ok { post := pushPostLookup postAttempt postId batch.length,
              comments := treeComments postId batch,
              comment_count := batch.length }
  ⟨res, out.attemptsMade, out.totalDelay⟩

/-- Raw submission record consumed by the searchReddit result map of
src/reddit-pushapi.ts. -/
structure PushSubmission where
  id : String
  title : Option String
  author : String
  subreddit : String
  subreddit_id : Option String
  score : Option Int
  created_utc : Option Nat
  num_comments : Option Nat
  permalink : Option String
  url : Option String
  selftext : Option String
  over_18 : Option Bool
  is_video : Option Bool
  locked : Option Bool
  stickied : Option Bool
  spoiler : Option Bool
deriving DecidableEq, Repr

/-- One entry of the searchReddit results array. -/
structure SearchResult where
  id : String
  title : String
  author : String
  subreddit : String
  subreddit_id : Option String
  score : Option Int
  created_utc : Option Nat
  num_comments : Option Nat
  permalink : String
  url : Option String
  selftext : String
  over_18 : Option Bool
  is_video : Bool
  locked : Bool
  stickied : Bool
  spoiler : Bool
deriving DecidableEq, Repr

/-- Selftext truncation shared by both searchReddit adapters: a truthy text
longer than 300 characters is cut to 300 and suffixed with an ellipsis. -/
def truncate300 (o : Option String) : String :=
  if strTruthy o then
    let s := o.getD ""
    if 300 < s.length then s.take 300 ++ "..." else s
  else ""

/-- The searchReddit result map of src/reddit-pushapi.ts (lines 217 to 242):
the permalink is origin plus path when truthy, otherwise the synthesized
fallback path built from the subreddit and the submission id. -/
def pushSearchNormalize (d : PushSubmission) : SearchResult :=
  { id := d.id, title := d.title.getD "", author := d.author,
    subreddit := d.subreddit, subreddit_id := d.subreddit_id,
    score := d.score, created_utc := d.created_utc,
    num_comments := d.num_comments,
    permalink :=
      if strTruthy d.permalink then "https://www.reddit.com" ++ d.permalink.getD ""
      else "https://www.reddit.com/r/" ++ d.subreddit ++ "/comments/" ++ d.id ++ "/",
    url := d.url, selftext := truncate300 d.selftext,
    over_18 := d.over_18, is_video := d.is_video.getD false,
    locked := d.locked.getD false, stickied := d.stickied.getD false,
    spoiler := d.spoiler.getD false }

/-! ## Forward-link adapter (src/hacker-news.ts) -/

/-- A raw Hacker News item as used by getComments: the story projection uses
id, title, author, url, score and time; comments use id, author, text and
time; `kids` is the ordered child-id list, empty when the field is absent. -/
structure HNItem where
  id : Nat
  author : String
  title : String
  text : String
  url : String
  score : Int
  time : Nat
  kids : List Nat
deriving DecidableEq, Repr

/-- Result of one HN item fetch through plain axios (default validateStatus):
`err` models a thrown axios error (network failure, timeout or a status of
400 and above), `ok none` a 200 response whose body is null (the Firebase
API answer for a missing item), and `ok some` a fetched record. -/
inductive FetchResult where
  | err (msg : String)
  | ok (item : Option HNItem)
deriving DecidableEq, Repr

/-- A materialized HN comment node, mirroring the object literal returned by
fetchComment. -/
inductive HNComment where
  | node (id : Nat) (author : String) (text : String) (time : Nat)
      (replies : List HNComment)

/-- The replies list of a materialized comment node. -/
def HNComment.replies : HNComment → List HNComment
  | .node _ _ _ _ r => r

/-- Promise.all over already-ordered settled computations: the whole batch
resolves to the list of values, or rejects with the first rejection. -/
def promiseAll {α : Type} : List (Except String α) → Except String (List α)
  | [] => .ok []
  | x :: xs =>
    match x with
    | .error e => .error e
    | .ok a =>
      match promiseAll xs with
      | .error e => .error e
      | .ok as => .ok (a :: as)

/-- fetchComment of src/hacker-news.ts getComments (lines 283 to 312),
fuelled by recursion depth: a thrown fetch propagates, a null body yields
null, and otherwise the kids are fetched as one concurrent batch whose
settled results are filtered for non-null nodes in input order. -/
def fetchComment (store : Nat → FetchResult) : Nat → Nat → Except String (Option HNComment)
  | 0, _ => .error "recursion limit"
  | fuel + 1, id =>
    match store id with
    | .err e => .error e
    | .ok none => .ok none
    | .ok (some c) =>
      match promiseAll (c.kids.map (fetchComment store fuel)) with
      | .error e => .error e
      | .ok results =>
        .ok (some (.node c.id c.author c.text c.time results.reduceOption))

/-- Story projection of the getComments output. -/
structure HNStoryOut where
  id : Nat
  title : String
  author : String
  time : Nat
  url : String
  score : Int
deriving DecidableEq, Repr

/-- Serialized payload of a successful getComments call. -/
structure HNOut where
  story : HNStoryOut
  comments : List HNComment
  count : Nat

/-- getComments of src/hacker-news.ts: the story fetch (a thrown fetch is
wrapped by the catch block, a null body raises the not-found UserError), the
empty-kids short-circuit, and the concurrent top-level batch whose rejection
also reaches the catch block and fails the whole call. -/
def getComments (store : Nat → FetchResult) (fuel : Nat) (storyId : Nat) :
    Except String HNOut :=
  match store storyId with
  | .err e => .error ("Failed to get Hacker News comments: " ++ e)
  | .ok none => .error ("Story with ID " ++ toString storyId ++ " not found")
  | .ok (some story) =>
    if story.kids.isEmpty then
      .ok { story := ⟨story.id, story.title, story.author, story.time,
              story.url, story.score⟩,
            comments := [], count := 0 }
    else
      match promiseAll (story.kids.map (fetchComment store fuel)) with
      | .error e => .error ("Failed to get Hacker News comments: " ++ e)
      | .ok results =>
        .ok { story := ⟨story.id, story.title, story.author, story.time,
                story.url, story.score⟩,
              comments := results.reduceOption,
              count := results.reduceOption.length }

/-! ## Helper lemmas -/

/-- When the first three attempts all fail, the loop runs all three, waits
the two backoff delays, and surfaces the last error. -/
theorem retryLoop_three_fail {α : Type} (base : Nat) (attempt : Nat → AttemptR α)
    (e0 e1 e2 : String)
    (h0 : attemptOutcome (attempt 0) = .error e0)
    (h1 : attemptOutcome (attempt 1) = .error e1)
    (h2 : attemptOutcome (attempt 2) = .error e2) :
    retryLoop base 3 attempt = ⟨.error e2, 3, base * 2 ^ 0 + base * 2 ^ 1⟩ := by
  simp [retryLoop, retryGo, h0, h1, h2]

/-- When the first two attempts fail and the third succeeds, the loop
returns the successful response after all three attempts and both backoff
delays. -/
theorem retryLoop_third_ok {α : Type} (base : Nat) (attempt : Nat → AttemptR α)
    (e0 e1 : String) (r : Response α)
    (h0 : attemptOutcome (attempt 0) = .error e0)
    (h1 : attemptOutcome (attempt 1) = .error e1)
    (h2 : attemptOutcome (attempt 2) = .ok r) :
    retryLoop base 3 attempt = ⟨.ok r, 3, base * 2 ^ 0 + base * 2 ^ 1⟩ := by
  simp [retryLoop, retryGo, h0, h1, h2]

/-! ## Claims about the retry loop -/

/-- C2, counterexample: a fetch whose response arrives with status 404 (a
4xx other than 429) is not surfaced immediately — getRedditComments issues
all 3 attempts, waits 3000 ms of backoff, and only then surfaces the error,
contradicting the claim that such terminal remote errors consume no retry
attempt. -/
theorem c2_counterexample :
    (getRedditCommentsReddit (fun _ => .resp 404 "Not Found" none) "abc").attemptsMade = 3 ∧
    (getRedditCommentsReddit (fun _ => .resp 404 "Not Found" none) "abc").totalDelay = 3000 ∧
    (getRedditCommentsReddit (fun _ => .resp 404 "Not Found" none) "abc").result
      = .error "Failed to get comments: HTTP error 404: Not Found" :=
  ⟨rfl, rfl, rfl⟩

/-- C2, amended: every response status of 400 and above — 4xx other than
429 included — is treated as a retryable failure: with a constant such
status the fetcher issues all 3 attempts, waits the two backoff delays, and
surfaces the HTTP error only after exhausting the retry budget. -/
theorem c2_amended {α : Type} (s : Nat) (st : String) (d : Option α)
    (h : 400 ≤ s) :
    (retryLoop 1000 3 (fun _ => AttemptR.resp s st d)).attemptsMade = 3 ∧
    (retryLoop 1000 3 (fun _ => AttemptR.resp s st d)).result
      = .error ("HTTP error " ++ toString s ++ ": " ++ st) ∧
    (retryLoop 1000 3 (fun _ => AttemptR.resp s st d)).totalDelay
      = 1000 * 2 ^ 0 + 1000 * 2 ^ 1 := by
  have hout : attemptOutcome (AttemptR.resp s st d)
      = .error ("HTTP error " ++ toString s ++ ": " ++ st) := by
    simp [attemptOutcome, h]
  have := retryLoop_three_fail 1000 (fun _ => AttemptR.resp s st d) _ _ _ hout hout hout
  rw [this]
  exact ⟨rfl, rfl, rfl⟩

/-- C2, witness for the amended theorem at status 404. -/
theorem c2_amended_witness :
    (retryLoop 1000 3 (fun _ => AttemptR.resp 404 "Not Found" (none : Option Unit))).attemptsMade = 3 ∧
    (retryLoop 1000 3 (fun _ => AttemptR.resp 404 "Not Found" (none : Option Unit))).result
      = .error ("HTTP error " ++ toString 404 ++ ": " ++ "Not Found") ∧
    (retryLoop 1000 3 (fun _ => AttemptR.resp 404 "Not Found" (none : Option Unit))).totalDelay
      = 1000 * 2 ^ 0 + 1000 * 2 ^ 1 :=
  c2_amended 404 "Not Found" none (by decide)

/-- C3: a fetch that fails on attempts 1 and 2 and succeeds on attempt 3
returns the successful response, issues exactly 3 attempts, and the total
backoff delay is baseDelay times 2 to the 0 plus baseDelay times 2 to
the 1, computed from the attempt count only. -/
theorem c3_retry_backoff {α : Type} (base : Nat) (attempt : Nat → AttemptR α)
    (r : Response α)
    (h0 : ∃ e, attemptOutcome (attempt 0) = .error e)
    (h1 : ∃ e, attemptOutcome (attempt 1) = .error e)
    (h2 : attemptOutcome (attempt 2) = .ok r) :
    retryLoop base 3 attempt = ⟨.ok r, 3, base * 2 ^ 0 + base * 2 ^ 1⟩ := by
  obtain ⟨e0, h0⟩ := h0
  obtain ⟨e1, h1⟩ := h1
  exact retryLoop_third_ok base attempt e0 e1 r h0 h1 h2

/-- Attempt schedule for the C3 witness: two network timeouts, then a
successful 200 response. -/
def c3wAttempt : Nat → AttemptR Unit := fun n =>
  if n = 2 then .resp 200 "OK" (some ()) else .netErr "timeout of 60000ms exceeded"

/-- C3, witness: with base delay 1000 ms the successful third attempt is
returned after exactly 3 attempts and 1000 + 2000 ms of backoff. -/
theorem c3_retry_backoff_witness :
    retryLoop 1000 3 c3wAttempt
      = ⟨.ok ⟨200, "OK", some ()⟩, 3, 1000 * 2 ^ 0 + 1000 * 2 ^ 1⟩ :=
  c3_retry_backoff 1000 c3wAttempt ⟨200, "OK", some ()⟩
    ⟨"timeout of 60000ms exceeded", rfl⟩ ⟨"timeout of 60000ms exceeded", rfl⟩ rfl

/-- C7: when the root comments fetch answers HTTP 500 on every attempt,
getRedditComments fails after the 3 attempts with a single terminal error
naming status 500, and no partial tree is returned. -/
theorem c7_root_500 (postId st : String) :
    (getRedditCommentsReddit (fun _ => .resp 500 st none) postId).result
      = .error ("Failed to get comments: " ++ ("HTTP error " ++ toString 500 ++ ": " ++ st)) ∧
    (getRedditCommentsReddit (fun _ => .resp 500 st none) postId).attemptsMade = 3 := by
  have hout : attemptOutcome (AttemptR.resp 500 st (none : Option RedditListing))
      = .error ("HTTP error " ++ toString 500 ++ ": " ++ st) := by
    simp [attemptOutcome]
  have hloop := retryLoop_three_fail 1000
    (fun _ => AttemptR.resp 500 st (none : Option RedditListing)) _ _ _ hout hout hout
  constructor
  · simp [getRedditCommentsReddit, hloop]
  · simp [getRedditCommentsReddit, hloop]

/-! ## Claims about processComments -/

/-- Discriminator for the raw truncation marker of kind more. -/
def isMoreItem : RChild → Bool
  | .more _ _ => true
  | .comment .. => false

/-- Discriminator for the processed placeholder node. -/
def isMoreNode : PNode → Bool
  | .more _ _ => true
  | .comment .. => false

theorem processComments_eq_map (cs : List RChild) :
    processComments cs = cs.map processOne := by
  induction cs with
  | nil => rfl
  | cons c cs ih => simp [processComments, ih]

theorem isMoreNode_processOne (c : RChild) :
    isMoreNode (processOne c) = isMoreItem c := by
  cases c <;> rfl

theorem countP_bnot {α : Type} (p : α → Bool) (l : List α) :
    l.countP (fun a => !(p a)) = l.length - l.countP p := by
  induction l with
  | nil => rfl
  | cons a l ih =>
    have hle := @List.countP_le_length _ p l
    cases h : p a <;> simp [List.countP_cons, h, ih] <;> omega

/-- C8: a listing of four children holding exactly one more marker with
count 5 alongside three comments processes to four nodes: the three real
comment nodes plus exactly one placeholder node carrying the count 5 and
the omitted child-id list. -/
theorem c8_more_placeholder (cs : List RChild) (ids : List String)
    (hmore : cs.filter isMoreItem = [.more 5 ids])
    (hlen : cs.length = 4) :
    (processComments cs).length = 4 ∧
    (processComments cs).filter isMoreNode = [.more 5 ids] ∧
    (processComments cs).countP (fun n => !(isMoreNode n)) = 3 := by
  have hmap := processComments_eq_map cs
  have hfilter : (processComments cs).filter isMoreNode = [PNode.more 5 ids] := by
    rw [hmap, List.filter_map]
    have : isMoreNode ∘ processOne = isMoreItem := funext isMoreNode_processOne
    rw [this, hmore]
    rfl
  refine ⟨by rw [hmap, List.length_map, hlen], hfilter, ?_⟩
  have hcount : (processComments cs).countP isMoreNode = 1 := by
    rw [List.countP_eq_length_filter, hfilter]
    rfl
  have hlen4 : (processComments cs).length = 4 := by
    rw [hmap, List.length_map, hlen]
  rw [countP_bnot isMoreNode, hlen4, hcount]

/-- Listing for the C8 witness: three comments followed by one more marker
with count 5. -/
def c8batch : List RChild :=
  [.comment "a1" "u1" "first" 1 10 none none,
   .comment "a2" "u2" "second" 2 11 none none,
   .comment "a3" "u3" "third" 3 12 none none,
   .more 5 ["m1", "m2", "m3", "m4", "m5"]]

/-- C8, witness at a concrete listing. -/
theorem c8_more_placeholder_witness :
    (processComments c8batch).length = 4 ∧
    (processComments c8batch).filter isMoreNode = [.more 5 ["m1", "m2", "m3", "m4", "m5"]] ∧
    (processComments c8batch).countP (fun n => !(isMoreNode n)) = 3 :=
  c8_more_placeholder c8batch ["m1", "m2", "m3", "m4", "m5"] rfl rfl

/-- C9, counterexample: in processComments of src/reddit.ts a comment that
omits its permalink path is emitted with a null permalink, not with a
synthesized fallback path built from identifiers, contradicting the claim
that every normalized node without a path gets a fallback permalink. -/
theorem c9_counterexample :
    processComments [.comment "c1" "alice" "hello" 4 20 none none]
      = [.comment "c1" "alice" "hello" 4 20 none []] := rfl

/-- C9, amended: permalinks are deterministic string templates, but the two
adapters differ on a missing path.  With a truthy relative path every
normalizer prepends the fixed origin; with a falsy path the PullPush
searchReddit map and the PullPush comment-tree first pass synthesize
fallback paths from the subreddit, post and item identifiers, while the
nested-reply adapter of src/reddit.ts emits null. -/
theorem c9_amended :
    (∀ p : Option String, strTruthy p = true →
      redditPermalink p = some ("https://www.reddit.com" ++ p.getD "")) ∧
    (∀ p : Option String, strTruthy p = false → redditPermalink p = none) ∧
    (∀ d : PushSubmission, strTruthy d.permalink = true →
      (pushSearchNormalize d).permalink = "https://www.reddit.com" ++ d.permalink.getD "") ∧
    (∀ d : PushSubmission, strTruthy d.permalink = false →
      (pushSearchNormalize d).permalink
        = "https://www.reddit.com/r/" ++ d.subreddit ++ "/comments/" ++ d.id ++ "/") ∧
    (∀ postId c, strTruthy c.permalink = true →
      (mkFields postId c).permalink = "https://www.reddit.com" ++ c.permalink.getD "") ∧
    (∀ postId c, strTruthy c.permalink = false →
      (mkFields postId c).permalink
        = "https://www.reddit.com/r/" ++ c.subreddit ++ "/comments/" ++ postId
          ++ "/comment/" ++ c.id ++ "/") := by
  refine ⟨?_, ?_, ?_, ?_, ?_, ?_⟩
  · intro p h; simp [redditPermalink, h]
  · intro p h; simp [redditPermalink, h]
  · intro d h; simp [pushSearchNormalize, h]
  · intro d h; simp [pushSearchNormalize, h]
  · intro postId c h; simp [mkFields, h]
  · intro postId c h; simp [mkFields, h]

/-- Submission with a relative path for the C9 witness. -/
def c9subWith : PushSubmission :=
  { id := "p1", title := some "t", author := "u", subreddit := "news",
    subreddit_id := none, score := none, created_utc := none,
    num_comments := none, permalink := some "/r/news/comments/p1/t/",
    url := none, selftext := none, over_18 := none, is_video := none,
    locked := none, stickied := none, spoiler := none }

/-- Submission without a path for the C9 witness. -/
def c9subWithout : PushSubmission :=
  { id := "p2", title := some "t", author := "u", subreddit := "news",
    subreddit_id := none, score := none, created_utc := none,
    num_comments := none, permalink := none,
    url := none, selftext := none, over_18 := none, is_video := none,
    locked := none, stickied := none, spoiler := none }

/-- Comment without a path for the C9 witness. -/
def c9cmtWithout : PushComment :=
  { id := "c7", author := "u", body := "b", score := 1, created_utc := 9,
    permalink := none, subreddit := "news", parent_id := some "t3_p2" }

/-- C9, witness instantiating every conjunct of the amended theorem. -/
theorem c9_amended_witness :
    redditPermalink (some "/r/news/comments/p1/t/")
      = some "https://www.reddit.com/r/news/comments/p1/t/" ∧
    redditPermalink none = none ∧
    (pushSearchNormalize c9subWith).permalink
      = "https://www.reddit.com/r/news/comments/p1/t/" ∧
    (pushSearchNormalize c9subWithout).permalink
      = "https://www.reddit.com/r/news/comments/p2/" ∧
    (mkFields "p2" c9cmtWithout).permalink
      = "https://www.reddit.com/r/news/comments/p2/comment/c7/" :=
  ⟨c9_amended.1 (some "/r/news/comments/p1/t/") rfl,
   c9_amended.2.1 none rfl,
   c9_amended.2.2.1 c9subWith rfl,
   c9_amended.2.2.2.1 c9subWithout rfl,
   c9_amended.2.2.2.2.2 "p2" c9cmtWithout rfl⟩

/-! ## Claims about the backward-link tree build -/

theorem lookupById_eq_none (batch : List PushComment) (i : String)
    (h : ∀ c ∈ batch, c.id ≠ i) : lookupById batch i = none := by
  induction batch with
  | nil => rfl
  | cons c rest ih =>
    have hrest := ih (fun d hd => h d (List.mem_cons_of_mem c hd))
    simp [lookupById, hrest, h c (List.mem_cons_self c rest)]

theorem lookupById_self (batch : List PushComment)
    (hnodup : (batch.map (fun c => c.id)).Nodup) (c : PushComment)
    (hc : c ∈ batch) : lookupById batch c.id = some c := by
  induction batch with
  | nil => cases hc
  | cons d rest ih =>
    rw [List.map_cons, List.nodup_cons] at hnodup
    rcases List.mem_cons.mp hc with rfl | hmem
    · have hnone : lookupById rest c.id = none := by
        apply lookupById_eq_none
        intro e he hei
        exact hnodup.1 (hei ▸ List.mem_map_of_mem (fun x => x.id) he)
      simp [lookupById, hnone]
    · simp [lookupById, ih hnodup.2 hmem]

theorem filterMap_lookup_eq_filter (p : PushComment → Bool)
    (batch : List PushComment) (l : List PushComment)
    (h : ∀ c ∈ l, lookupById batch c.id = some c) :
    l.filterMap (fun c => if p c then lookupById batch c.id else none)
      = l.filter p := by
  induction l with
  | nil => rfl
  | cons c rest ih =>
    have hc := h c (List.mem_cons_self c rest)
    have hrest := ih (fun d hd => h d (List.mem_cons_of_mem c hd))
    cases hp : p c <;>
      simp [List.filterMap_cons, List.filter_cons, hp, hc, hrest]

theorem topLevelComments_eq_filter (postId : String) (batch : List PushComment)
    (hnodup : (batch.map (fun c => c.id)).Nodup) :
    topLevelComments postId batch
      = batch.filter (fun c => directTopLevel postId c || orphanTopLevel batch c) :=
  filterMap_lookup_eq_filter _ batch batch
    (fun c hc => lookupById_self batch hnodup c hc)

/-- C4: in the backward-link tree build, every record whose parent_id is
exactly t3_ plus the post id appears exactly once in the top-level list, in
original batch order (the direct entries of the top level are precisely the
direct records of the batch, and the whole top level is a subsequence of
the batch). -/
theorem c4_direct_top_level (postId : String) (batch : List PushComment)
    (hnodup : (batch.map (fun c => c.id)).Nodup) :
    (topLevelComments postId batch).filter (directTopLevel postId)
      = batch.filter (directTopLevel postId) ∧
    (topLevelComments postId batch).Sublist batch := by
  have htop := topLevelComments_eq_filter postId batch hnodup
  constructor
  · rw [htop, List.filter_filter]
    apply List.filter_congr
    intro c hc
    cases h : directTopLevel postId c <;> simp [h]
  · rw [htop]
    exact List.filter_sublist _

/-- Top-level comment of the C4 and C10 witness batch, a direct reply to
post abc123. -/
def c4c1 : PushComment :=
  { id := "c1", author := "alice", body := "top comment", score := 5,
    created_utc := 100, permalink := none, subreddit := "news",
    parent_id := some "t3_abc123" }

/-- Nested reply of the C4 and C10 witness batch, a child of c1. -/
def c4c2 : PushComment :=
  { id := "c2", author := "bob", body := "nested reply", score := 2,
    created_utc := 101, permalink := none, subreddit := "news",
    parent_id := some "t1_c1" }

/-- C4, witness at the scenario batch of the spec: post abc123 with a
direct comment c1 and a nested reply c2. -/
theorem c4_direct_top_level_witness :
    (topLevelComments "abc123" [c4c1, c4c2]).filter (directTopLevel "abc123")
      = [c4c1, c4c2].filter (directTopLevel "abc123") ∧
    (topLevelComments "abc123" [c4c1, c4c2]).Sublist [c4c1, c4c2] :=
  c4_direct_top_level "abc123" [c4c1, c4c2] (by decide)

/-- Record with a parent_id that resolves to no node, used to refute C5. -/
def orphanCex : PushComment :=
  { id := "c1", author := "alice", body := "stray", score := 0,
    created_utc := 7, permalink := none, subreddit := "news",
    parent_id := some "t2_foo" }

/-- C5, counterexample: a record whose parent_id (here the t2_ fullname
t2_foo) resolves to no known node is not promoted to the top level — the
built tree is empty and the record is dropped from the output entirely,
contradicting the claim that orphan-promotion applies regardless of the
form of the parent identifier. -/
theorem c5_counterexample :
    topLevelComments "abc123" [orphanCex] = [] ∧
    treeComments "abc123" [orphanCex] = [] ∧
    lookupById [orphanCex] "foo" = none ∧
    lookupById [orphanCex] "t2_foo" = none :=
  ⟨rfl, rfl, rfl, rfl⟩

/-- C5, amended: orphan-promotion holds only for comment-prefixed parents.
A record whose parent_id carries the t1_ prefix and whose stripped parent
id is not a key of the lookup table is promoted to the top level; records
whose parent_id has any other unresolvable form are dropped (as the
counterexample shows). -/
theorem c5_amended (postId : String) (batch : List PushComment)
    (c : PushComment) (p : String)
    (hmem : c ∈ batch) (hnodup : (batch.map (fun x => x.id)).Nodup)
    (hp : c.parent_id = some p) (hpre : strStartsWith p "t1_" = true)
    (hnores : lookupById batch (p.drop 3) = none) :
    c ∈ topLevelComments postId batch := by
  have horph : orphanTopLevel batch c = true := by
    simp [orphanTopLevel, hp, hpre, hnores]
  apply List.mem_filterMap.mpr
  refine ⟨c, hmem, ?_⟩
  simp [horph, lookupById_self batch hnodup c hmem]

/-- Record with a t1_-prefixed parent_id whose parent is absent from the
batch, used as the C5 witness. -/
def orphanW : PushComment :=
  { id := "c9", author := "carol", body := "reply to a missing comment",
    score := 1, created_utc := 8, permalink := none, subreddit := "news",
    parent_id := some "t1_zzz" }

/-- C5, witness: the t1_-orphan is promoted to the top level. -/
theorem c5_amended_witness : orphanW ∈ topLevelComments "abc123" [orphanW] :=
  c5_amended "abc123" [orphanW] orphanW "t1_zzz" (by decide) (by decide)
    rfl rfl rfl

/-- Failure shapes of the post-metadata lookup that keep the default post:
the request threw, or the response status is not 200, or its body holds no
nonempty data array. -/
def postLookupFailed : AttemptR (List PushPostData) → Prop
  | .netErr _ => True
  | .resp s _ d => s ≠ 200 ∨ d = none ∨ d = some []

/-- C10: when the comment search succeeds but the separate post-metadata
lookup fails or comes back empty, the PullPush getRedditComments invocation
still succeeds, returning the built comment tree together with the default
post object carrying the requested id, title Unknown, empty selftext and
the fetched comment count. -/
theorem c10_post_fallback (attempt : Nat → AttemptR (List PushComment))
    (postAttempt : AttemptR (List PushPostData)) (postId : String)
    (r : Response (List PushComment)) (batch : List PushComment)
    (hloop : (retryLoop 1000 3 attempt).result = .ok r)
    (hdata : r.data = some batch)
    (hfail : postLookupFailed postAttempt) :
    (pushapiGetComments attempt postAttempt postId).result
      = .ok { post := { id := postId, title := "Unknown", author := none,
                        subreddit := none, score := none, created_utc := none,
                        permalink := none, url := none, selftext := "",
                        num_comments := batch.length },
              comments := treeComments postId batch,
              comment_count := batch.length } := by
  have hpl : pushPostLookup postAttempt postId batch.length
      = defaultPost postId batch.length := by
    cases postAttempt with
    | netErr m => rfl
    | resp s st d =>
      by_cases hs : s = 200
      · subst hs
        rcases hfail with h | h | h
        · exact absurd rfl h
        · subst h; rfl
        · subst h; rfl
      · simp [pushPostLookup, hs]
  simp [pushapiGetComments, hloop, hdata, hpl, defaultPost]

/-- Attempt schedule for the C10 witness: the comment search succeeds on
the first try with the two-record scenario batch. -/
def c10attempt : Nat → AttemptR (List PushComment) :=
  fun _ => .resp 200 "OK" (some [c4c1, c4c2])

/-- C10, witness: with a 404 post lookup the invocation still succeeds with
the default post and the built tree. -/
theorem c10_post_fallback_witness :
    (pushapiGetComments c10attempt (.resp 404 "Not Found" none) "abc123").result
      = .ok { post := { id := "abc123", title := "Unknown", author := none,
                        subreddit := none, score := none, created_utc := none,
                        permalink := none, url := none, selftext := "",
                        num_comments := 2 },
              comments := treeComments "abc123" [c4c1, c4c2],
              comment_count := 2 } :=
  c10_post_fallback c10attempt (.resp 404 "Not Found" none) "abc123"
    ⟨200, "OK", some [c4c1, c4c2]⟩ [c4c1, c4c2] rfl rfl (Or.inl (by decide))

/-! ## Claims about the forward-link materializer -/

/-- Holds of a settled child fetch that produced an item: the promise
resolved and the body was not null. -/
def isOkSome : Except String (Option HNComment) → Bool
  | .ok (some _) => true
  | .ok none => false
  | .error _ => false

/-- Value of a resolved child fetch, null for a rejection. -/
def okJoin : Except String (Option HNComment) → Option HNComment
  | .ok o => o
  | .error _ => none

theorem promiseAll_ok_eq {α : Type} (l : List (Except String α)) (as : List α)
    (h : promiseAll l = .ok as) : l = as.map Except.ok := by
  induction l generalizing as with
  | nil =>
    simp only [promiseAll] at h
    cases h
    rfl
  | cons x xs ih =>
    cases x with
    | error e => simp [promiseAll] at h
    | ok a =>
      simp only [promiseAll] at h
      cases hxs : promiseAll xs with
      | error e => rw [hxs] at h; cases h
      | ok bs =>
        rw [hxs] at h
        cases h
        simp [ih bs hxs]

theorem promiseAll_all_ok (l : List (Except String (Option HNComment)))
    (h : ∀ x ∈ l, ∃ o, x = .ok o) :
    promiseAll l = .ok (l.map okJoin) := by
  induction l with
  | nil => rfl
  | cons x xs ih =>
    obtain ⟨o, ho⟩ := h x (List.mem_cons_self x xs)
    subst ho
    have ihx := ih (fun y hy => h y (List.mem_cons_of_mem _ hy))
    simp [promiseAll, ihx, okJoin]

theorem reduceOption_length_countP {α : Type} (l : List (Option α)) :
    l.reduceOption.length = l.countP (fun o => o.isSome) := by
  induction l with
  | nil => rfl
  | cons o l ih =>
    cases o <;> simp [List.reduceOption_cons_of_some, List.countP_cons, ih]

/-- Store for the C1 counterexample: story 1 has kids 2 and 3; the fetch of
kid 2 succeeds, the fetch of kid 3 throws a network error. -/
def hnStoreCex : Nat → FetchResult := fun n =>
  match n with
  | 1 => .ok (some { id := 1, author := "op", title := "A story", text := "",
                     url := "https://example.com", score := 42, time := 1000,
                     kids := [2, 3] })
  | 2 => .ok (some { id := 2, author := "alice", title := "", text := "first",
                     url := "", score := 0, time := 1001, kids := [] })
  | 3 => .err "Network Error"
  | _ => .ok none

/-- C1, counterexample: a child whose fetch throws is not simply omitted —
the rejection propagates through Promise.all and the whole getComments
invocation fails instead of succeeding with a partial tree, contradicting
the claim that any per-child fetch failure is locally absorbed. -/
theorem c1_counterexample :
    hnStoreCex 3 = .err "Network Error" ∧
    getComments hnStoreCex 5 1
      = .error "Failed to get Hacker News comments: Network Error" :=
  ⟨rfl, rfl⟩

/-- C1, amended: for every node that resolves, the number of direct
children attached equals the count of identifiers in its kids list whose
fetch resolved with an item; a child whose fetch resolves with a null body
is omitted from the children.  A child fetch that throws, however,
propagates and fails the entire call, as the counterexample shows. -/
theorem c1_child_count (fuel : Nat) (store : Nat → FetchResult) (id : Nat)
    (raw : HNItem) (node : HNComment)
    (hstore : store id = .ok (some raw))
    (hres : fetchComment store (fuel + 1) id = .ok (some node)) :
    node.replies.length
      = raw.kids.countP (fun k => isOkSome (fetchComment store fuel k)) := by
  simp only [fetchComment, hstore] at hres
  cases hpa : promiseAll (raw.kids.map (fetchComment store fuel)) with
  | error e => simp [hpa] at hres
  | ok results =>
    simp only [hpa, Except.ok.injEq, Option.some.injEq] at hres
    subst hres
    have hmap := promiseAll_ok_eq _ results hpa
    simp only [HNComment.replies]
    rw [reduceOption_length_countP]
    have : raw.kids.countP (fun k => isOkSome (fetchComment store fuel k))
        = (raw.kids.map (fetchComment store fuel)).countP isOkSome := by
      rw [List.countP_map]
      rfl
    rw [this, hmap, List.countP_map]
    apply List.countP_congr
    intro o ho
    cases o <;> simp [isOkSome, Function.comp]

/-- Store for the C1 and C6 witnesses: story 1 has kids 2, 3 and 4, of
which 2 and 4 resolve with items and 3 resolves with a null body. -/
def hnStoreOk : Nat → FetchResult := fun n =>
  match n with
  | 1 => .ok (some { id := 1, author := "op", title := "A story", text := "",
                     url := "https://example.com", score := 42, time := 1000,
                     kids := [2, 3, 4] })
  | 2 => .ok (some { id := 2, author := "alice", title := "", text := "first",
                     url := "", score := 0, time := 1001, kids := [] })
  | 4 => .ok (some { id := 4, author := "bob", title := "", text := "second",
                     url := "", score := 0, time := 1002, kids := [] })
  | _ => .ok none

/-- C1, witness: the root of the witness store resolves with two attached
children out of three declared kids, matching the count of kid fetches
that produced an item. -/
theorem c1_child_count_witness :
    (HNComment.node 1 "op" "" 1000
        [HNComment.node 2 "alice" "first" 1001 [],
         HNComment.node 4 "bob" "second" 1002 []]).replies.length
      = [2, 3, 4].countP (fun k => isOkSome (fetchComment hnStoreOk 2 k)) :=
  c1_child_count 2 hnStoreOk 1
    { id := 1, author := "op", title := "A story", text := "",
      url := "https://example.com", score := 42, time := 1000,
      kids := [2, 3, 4] }
    (HNComment.node 1 "op" "" 1000
      [HNComment.node 2 "alice" "first" 1001 [],
       HNComment.node 4 "bob" "second" 1002 []])
    rfl rfl

/-- C6: when every kid fetch of a resolved node settles without throwing,
the children attached to the node are exactly the per-kid results taken in
the order of the declared kid identifiers, with null results removed
positionally — the materializer never reorders siblings. -/
theorem c6_sibling_order (fuel : Nat) (store : Nat → FetchResult) (id : Nat)
    (raw : HNItem)
    (hstore : store id = .ok (some raw))
    (hok : ∀ k ∈ raw.kids, ∃ o, fetchComment store fuel k = .ok o) :
    fetchComment store (fuel + 1) id
      = .ok (some (.node raw.id raw.author raw.text raw.time
          ((raw.kids.map (fun k => okJoin (fetchComment store fuel k))).reduceOption))) := by
  have hall : ∀ x ∈ raw.kids.map (fetchComment store fuel), ∃ o, x = .ok o := by
    intro x hx
    obtain ⟨k, hk, rfl⟩ := List.mem_map.mp hx
    exact hok k hk
  simp only [fetchComment, hstore, promiseAll_all_ok _ hall, List.map_map]
  rfl

/-- C6, witness at the witness store: the two resolved children appear in
kid order 2 then 4, with the null result of kid 3 removed positionally. -/
theorem c6_sibling_order_witness :
    fetchComment hnStoreOk 3 1
      = .ok (some (.node 1 "op" "" 1000
          (([2, 3, 4].map (fun k => okJoin (fetchComment hnStoreOk 2 k))).reduceOption))) :=
  c6_sibling_order 2 hnStoreOk 1
    { id := 1, author := "op", title := "A story", text := "",
      url := "https://example.com", score := 42, time := 1000,
      kids := [2, 3, 4] }
    rfl
    (by intro k hk; fin_cases hk <;> exact ⟨_, rfl⟩)

end MCP
